import Mathlib

/-!
Verification of the configuration-resolution layer of a time-synchronization
client (package `client`, file `config.go`).

Conventions of the embedding:
* Go `time.Duration` is an `int64` count of nanoseconds; Go `int` is a signed
  machine integer.  The code under study performs no arithmetic on them (only
  comparisons and assignments), so both are embedded as `Int`.
* Go `map[string]int` is embedded as an association list `List (String × Int)`
  together with a replacing insertion `mapInsert` that mirrors `m[k] = v`.
  Go map iteration order is unspecified; the association list fixes one
  admissible order (insertion order).
* External capabilities (`net.ParseIP`, `net.LookupHost`, and the
  read-file-and-unmarshal composite `ReadConfig`) are parameters: `NetEnv`
  bundles the two name-resolution calls, and `readConfig` stands for
  `ReadConfig`, returning either the file-overlaid config or an error string.
* Go `error` values are embedded as `String` (the `fmt.Errorf` message);
  `fmt.Errorf("...: %w", err)` wrapping becomes string concatenation.
  A function returning `(*T, error)` becomes `Except String T`, and a
  function returning only `error` becomes `Option String` (`none` = nil).
* Logging (`log.Warningf`, `log.Debugf`) is observability only and never
  changes control flow; it is not modelled.
-/

/-- Modelled from the spec: the path-delay filter constants `FilterNone`,
`FilterMean`, `FilterMedian` are declared outside the given source file.  The
spec calls the enumerated kinds none | mean | median and notes the exact
literal values are the surrounding system's concern; it also requires that a
`Config` built purely from defaults and CLI targets (whose nested
`MeasurementConfig` is the zero value, with empty filter string) passes
validation, which forces the "none" constant to be the empty string. -/
def FilterNone : String := ""

/-- Modelled from the spec: the "mean" path-delay filter constant. -/
def FilterMean : String := "mean"

/-- Modelled from the spec: the "median" path-delay filter constant. -/
def FilterMedian : String := "median"

/-- Modelled from the spec: the hardware timestamping mode constant, declared
outside the given source file; the spec names the literal `"HWTIMESTAMP"`. -/
def HWTIMESTAMP : String := "HWTIMESTAMP"

/-- Modelled from the spec: the software timestamping mode constant, declared
outside the given source file; the spec names the literal `"SWTIMESTAMP"`. -/
def SWTIMESTAMP : String := "SWTIMESTAMP"

/-- One nanosecond, the unit of Go `time.Duration`. -/
def Nanosecond : Int := 1

/-- `time.Millisecond` in nanoseconds. -/
def Millisecond : Int := 1000000

/-- `time.Second` in nanoseconds. -/
def Second : Int := 1000000000

/-- `MeasurementConfig` describes configuration for how offset is measured
(struct `MeasurementConfig` of the source). -/
structure MeasurementConfig where
  PathDelayFilterLength : Int
  PathDelayFilter : String
  PathDelayDiscardFilterEnabled : Bool
  PathDelayDiscardBelow : Int
  deriving DecidableEq, Repr

/-- The zero value of `MeasurementConfig` (what a fresh Go struct holds). -/
def MeasurementConfig.zero : MeasurementConfig :=
  { PathDelayFilterLength := 0
    PathDelayFilter := ""
    PathDelayDiscardFilterEnabled := false
    PathDelayDiscardBelow := 0 }

/-- `MeasurementConfig.Validate` from the source: `nil` (here `none`) when the
measurement settings are sane, otherwise the first failing check's message. -/
def MeasurementConfig.Validate (c : MeasurementConfig) : Option String :=
  if c.PathDelayFilterLength < 0 then
    some "path_delay_filter_length must be 0 or positive"
  else if c.PathDelayFilter ≠ FilterNone ∧ c.PathDelayFilter ≠ FilterMean ∧
      c.PathDelayFilter ≠ FilterMedian then
    some ("path_delay_filter must be either \"" ++ FilterNone ++ "\", \"" ++
      FilterMean ++ "\" or \"" ++ FilterMedian ++ "\"")
  else
    none

/-- `Config` specifies PTPNG run options (struct `Config` of the source).
`Servers` embeds Go `map[string]int` as an association list. -/
structure Config where
  Iface : String
  Timestamping : String
  MonitoringPort : Int
  Interval : Int
  ExchangeTimeout : Int
  DSCP : Int
  FirstStepThreshold : Int
  Servers : List (String × Int)
  Measurement : MeasurementConfig
  MetricsAggregationWindow : Int
  AttemptsTXTS : Int
  TimeoutTXTS : Int
  FreeRunning : Bool
  deriving DecidableEq, Repr

/-- `DefaultConfig` returns `Config` initialized with default values; fields
the Go literal omits hold their zero value. -/
def DefaultConfig : Config :=
  { Iface := ""
    Timestamping := HWTIMESTAMP
    MonitoringPort := 0
    Interval := Second
    ExchangeTimeout := 100 * Millisecond
    DSCP := 0
    FirstStepThreshold := 0
    Servers := []
    Measurement := MeasurementConfig.zero
    MetricsAggregationWindow := 60 * Second
    AttemptsTXTS := 10
    TimeoutTXTS := 50 * Millisecond
    FreeRunning := false }

/-- `Config.Validate` from the source: `nil` (here `none`) when the config is
sane, otherwise the first failing check's message. -/
def Config.Validate (c : Config) : Option String :=
  if c.Interval ≤ 0 then
    some "interval must be greater than zero"
  else if c.AttemptsTXTS ≤ 0 then
    some "attemptstxts must be greater than zero"
  else if c.TimeoutTXTS ≤ 0 then
    some "timeouttxts must be greater than zero"
  else if c.MetricsAggregationWindow ≤ 0 then
    some "metricsaggregationwindow must be greater than zero"
  else if c.MonitoringPort < 0 then
    some "monitoringport must be 0 or positive"
  else if c.DSCP < 0 then
    some "dscp must be 0 or positive"
  else if c.ExchangeTimeout ≤ 0 ∨ c.ExchangeTimeout ≥ c.Interval then
    some "exchangetimeout must be greater than zero but less than interval"
  else if c.Servers.length = 0 then
    some "at least one server must be specified"
  else if c.Timestamping ≠ HWTIMESTAMP ∧ c.Timestamping ≠ SWTIMESTAMP then
    some ("only \"" ++ HWTIMESTAMP ++ "\" and \"" ++ SWTIMESTAMP ++
      "\" timestamping is supported")
  else if c.Iface = "" then
    some "iface must be specified"
  else
    match c.Measurement.Validate with
    | some e => some ("invalid measurement config: " ++ e)
    | none => none

/-- The two external name-resolution calls used by `addrToIPstr`:
`parseIP a` is whether `net.ParseIP(a)` returns non-nil (i.e. `a` is a literal
address), and `lookupHost` is `net.LookupHost` returning either the resolved
names or an error. -/
structure NetEnv where
  parseIP : String → Bool
  lookupHost : String → Except String (List String)

/-- `addrToIPstr` from the source: a literal address is returned unchanged;
otherwise the first result of a successful non-empty lookup is substituted,
and on a failed or empty lookup the original string is returned. -/
def addrToIPstr (env : NetEnv) (address : String) : String :=
  if env.parseIP address = false then
    match env.lookupHost address with
    | .ok names => if names.length > 0 then names.headD address else address
    | .error _ => address
  else
    address

/-- Go `m[k] = v` on a `map[string]int` embedded as an association list:
replace the binding of `k` if present, otherwise append a new binding. -/
def mapInsert (m : List (String × Int)) (k : String) (v : Int) :
    List (String × Int) :=
  match m with
  | [] => [(k, v)]
  | (k2, v2) :: rest =>
      if k2 = k then (k, v) :: rest else (k2, v2) :: mapInsert rest k v

/-- The `len(targets) > 0` branch of `PrepareConfig`: rebuild the server map
from the CLI targets alone, `cfg.Servers[addrToIPstr(t)] = i` for each
zero-indexed target `t`. -/
def buildServers (env : NetEnv) (targets : List String) :
    List (String × Int) :=
  (targets.enum).foldl
    (fun m p => mapInsert m (addrToIPstr env p.2) (Int.ofNat p.1)) []

/-- The `else` branch of `PrepareConfig`: rebuild the server map from the
existing one, normalizing every key and keeping its value. -/
def normalizeServers (env : NetEnv) (servers : List (String × Int)) :
    List (String × Int) :=
  servers.foldl (fun acc p => mapInsert acc (addrToIPstr env p.1) p.2) []

/-- The defaults/file stage of `PrepareConfig` (lines 143-153): start from
`DefaultConfig`; when a path is given, replace it by `readConfig`'s result,
turning a read/parse failure into an error wrapped with the path. -/
def fileStage (readConfig : String → Except String Config)
    (cfgPath : String) : Except String Config :=
  if cfgPath ≠ "" then
    match readConfig cfgPath with
    | .ok c => .ok c
    | .error e =>
        .error ("reading config from \"" ++ cfgPath ++ "\": " ++ e)
  else
    .ok DefaultConfig

/-- The server-resolution stage of `PrepareConfig` (lines 154-168). -/
def serverStage (env : NetEnv) (targets : List String) (cfg : Config) :
    Config :=
  if targets.length > 0 then
    { cfg with Servers := buildServers env targets }
  else
    { cfg with Servers := normalizeServers env cfg.Servers }

/-- Line 169-172 of the source: `if iface != "" && iface != cfg.Iface`. -/
def overrideIface (iface : String) (cfg : Config) : Config :=
  if iface ≠ "" ∧ iface ≠ cfg.Iface then { cfg with Iface := iface } else cfg

/-- Line 174-177: `if monitoringPort != 0 && monitoringPort != cfg.MonitoringPort`. -/
def overrideMonitoringPort (monitoringPort : Int) (cfg : Config) : Config :=
  if monitoringPort ≠ 0 ∧ monitoringPort ≠ cfg.MonitoringPort then
    { cfg with MonitoringPort := monitoringPort } else cfg

/-- Line 179-182: `if interval != 0 && interval != cfg.Interval`. -/
def overrideInterval (interval : Int) (cfg : Config) : Config :=
  if interval ≠ 0 ∧ interval ≠ cfg.Interval then
    { cfg with Interval := interval } else cfg

/-- Line 184-187: `if dscp != 0 && dscp != cfg.DSCP`. -/
def overrideDSCP (dscp : Int) (cfg : Config) : Config :=
  if dscp ≠ 0 ∧ dscp ≠ cfg.DSCP then { cfg with DSCP := dscp } else cfg

/-- The CLI scalar-override stage of `PrepareConfig` (lines 169-187): the
four independent `if` statements run in source order; each field is
overwritten exactly when the CLI value is non-zero (non-empty for `iface`)
and differs from the value currently held. -/
def cliStage (iface : String) (monitoringPort interval dscp : Int)
    (cfg : Config) : Config :=
  overrideDSCP dscp
    (overrideInterval interval
      (overrideMonitoringPort monitoringPort (overrideIface iface cfg)))

/-- `PrepareConfig` from the source: defaults, optional file overlay, server
resolution, CLI scalar overrides, then validation; returns the final config
or exactly one error. -/
def PrepareConfig (env : NetEnv)
    (readConfig : String → Except String Config) (cfgPath : String)
    (targets : List String) (iface : String)
    (monitoringPort interval dscp : Int) : Except String Config :=
  match fileStage readConfig cfgPath with
  | .error e => .error e
  | .ok cfg =>
      let cfg := serverStage env targets cfg
      let cfg := cliStage iface monitoringPort interval dscp cfg
      match cfg.Validate with
      | some e => .error ("validating config: " ++ e)
      | none => .ok cfg

/-! ### Shared fixtures and helpers for the theorems below -/

/-- A concrete resolution environment used to instantiate theorems: four
literal addresses parse, three hostnames resolve (one to an empty result
list), and everything else fails to resolve. -/
def testNet : NetEnv :=
  { parseIP := fun s =>
      (s == "192.0.2.1") || (s == "10.0.0.1") || (s == "10.0.0.2") ||
        (s == "127.0.0.1")
    lookupHost := fun s =>
      if s == "localhost" then .ok ["127.0.0.1"]
      else if s == "host-a" then .ok ["10.0.0.1"]
      else if s == "host-b" then .ok ["10.0.0.2"]
      else if s == "empty-host" then .ok []
      else .error "lookup: no such host" }

/-- A concrete `ReadConfig` stand-in that fails on every path. -/
def readFail : String → Except String Config := fun _ => .error "no such file"

/-- A concrete fully-valid configuration. -/
def validConfig : Config :=
  { DefaultConfig with Iface := "eth0", Servers := [("192.0.2.1", 0)] }

/-- Extract the config of a successful result (`DefaultConfig` on error). -/
def getOk (r : Except String Config) : Config :=
  match r with
  | .ok c => c
  | .error _ => DefaultConfig

/-- A concrete `ReadConfig` stand-in whose file `two.yaml` holds two server
entries, `localhost` with priority 0 and `127.0.0.1` with priority 1; under
`testNet` both keys normalize to `127.0.0.1`. -/
def readTwoServers : String → Except String Config := fun p =>
  if p == "two.yaml" then
    .ok { DefaultConfig with
            Iface := "eth1"
            Servers := [("localhost", 0), ("127.0.0.1", 1)] }
  else
    .error "no such file"

/-- The validator's eleven checks in the spec's order, each as the pair of
"the check passes" and the failure message naming the violated field.
Written from the spec's words, to be compared with `Config.Validate`. -/
def validateChecks (c : Config) : List (Bool × String) :=
  [(decide (0 < c.Interval), "interval must be greater than zero"),
   (decide (0 < c.AttemptsTXTS), "attemptstxts must be greater than zero"),
   (decide (0 < c.TimeoutTXTS), "timeouttxts must be greater than zero"),
   (decide (0 < c.MetricsAggregationWindow),
     "metricsaggregationwindow must be greater than zero"),
   (decide (0 ≤ c.MonitoringPort), "monitoringport must be 0 or positive"),
   (decide (0 ≤ c.DSCP), "dscp must be 0 or positive"),
   (decide (0 < c.ExchangeTimeout ∧ c.ExchangeTimeout < c.Interval),
     "exchangetimeout must be greater than zero but less than interval"),
   (decide (c.Servers ≠ []), "at least one server must be specified"),
   (decide (c.Timestamping = HWTIMESTAMP ∨ c.Timestamping = SWTIMESTAMP),
     "only \"" ++ HWTIMESTAMP ++ "\" and \"" ++ SWTIMESTAMP ++
       "\" timestamping is supported"),
   (decide (c.Iface ≠ ""), "iface must be specified"),
   ((c.Measurement.Validate).isNone,
     "invalid measurement config: " ++ (c.Measurement.Validate).getD "")]

/-- The message of the first check in the list that fails (fail-fast),
`none` when every check passes. -/
def firstFailing (checks : List (Bool × String)) : Option String :=
  (checks.find? (fun p => !p.1)).map (fun p => p.2)

/-! ### C8: defaults -/

/-- C8: `DefaultConfig` returns a `Config` whose polling interval is 1 second,
exchange timeout 100 ms, metrics aggregation window 60 s, transmit-timestamp
attempt count 10, per-attempt timeout 50 ms, and timestamping mode hardware.
It is a pure value of the embedding, so it has no side effects and is not
shared between calls. -/
theorem defaultConfig_values :
    DefaultConfig.Interval = Second ∧
    DefaultConfig.ExchangeTimeout = 100 * Millisecond ∧
    DefaultConfig.MetricsAggregationWindow = 60 * Second ∧
    DefaultConfig.AttemptsTXTS = 10 ∧
    DefaultConfig.TimeoutTXTS = 50 * Millisecond ∧
    DefaultConfig.Timestamping = HWTIMESTAMP :=
  ⟨rfl, rfl, rfl, rfl, rfl, rfl⟩

set_option maxHeartbeats 1600000 in
/-- A `Config` validates exactly when every one of the eleven checks of
`Config.Validate` passes.  Shared workhorse lemma for the claims below. -/
theorem validate_none_iff (c : Config) :
    Config.Validate c = none ↔
      (0 < c.Interval ∧ 0 < c.AttemptsTXTS ∧ 0 < c.TimeoutTXTS ∧
       0 < c.MetricsAggregationWindow ∧ 0 ≤ c.MonitoringPort ∧ 0 ≤ c.DSCP ∧
       0 < c.ExchangeTimeout ∧ c.ExchangeTimeout < c.Interval ∧
       c.Servers ≠ [] ∧
       (c.Timestamping = HWTIMESTAMP ∨ c.Timestamping = SWTIMESTAMP) ∧
       c.Iface ≠ "" ∧ c.Measurement.Validate = none) := by
  constructor
  · intro h
    unfold Config.Validate at h
    split_ifs at h with h1 h2 h3 h4 h5 h6 h7 h8 h9 h10 <;>
      try exact Option.noConfusion h
    have hm : c.Measurement.Validate = none := by
      cases hm2 : c.Measurement.Validate with
      | none => rfl
      | some e => rw [hm2] at h; exact Option.noConfusion h
    refine ⟨by omega, by omega, by omega, by omega, by omega, by omega,
      by omega, by omega, ?_, ?_, h10, hm⟩
    · intro hnil
      exact h8 (by rw [hnil]; rfl)
    · by_cases hh : c.Timestamping = HWTIMESTAMP
      · exact Or.inl hh
      · refine Or.inr ?_
        by_contra hs
        exact h9 ⟨hh, hs⟩
  · rintro ⟨g1, g2, g3, g4, g5, g6, g7, g8, g9, g10, g11, g12⟩
    unfold Config.Validate
    rw [if_neg (by omega), if_neg (by omega), if_neg (by omega),
      if_neg (by omega), if_neg (by omega), if_neg (by omega),
      if_neg (by omega),
      if_neg (show ¬c.Servers.length = 0 from
        fun hlen => g9 (List.length_eq_zero.mp hlen)),
      if_neg (show ¬(c.Timestamping ≠ HWTIMESTAMP ∧
          c.Timestamping ≠ SWTIMESTAMP) from
        fun hts => g10.elim (fun hh => hts.1 hh) (fun hs => hts.2 hs)),
      if_neg g11, g12]

/-! ### C3: strictness of the exchange-timeout bound -/

/-- C3: `Config.Validate` enforces `0 < ExchangeTimeout < Interval` strictly:
a config whose exchange timeout equals its interval always fails validation,
and lowering the exchange timeout of any valid config to one nanosecond below
its interval keeps it valid. -/
theorem validate_exchangeTimeout_strict (c : Config) :
    (c.ExchangeTimeout = c.Interval → (Config.Validate c).isSome) ∧
    (Config.Validate c = none →
      Config.Validate { c with ExchangeTimeout := c.Interval - Nanosecond } =
        none) := by
  constructor
  · intro h
    rw [Option.isSome_iff_ne_none]
    intro hn
    obtain ⟨-, -, -, -, -, -, -, hlt, -⟩ := (validate_none_iff c).mp hn
    omega
  · intro h
    obtain ⟨g1, g2, g3, g4, g5, g6, g7, g8, g9, g10, g11, g12⟩ :=
      (validate_none_iff c).mp h
    refine (validate_none_iff _).mpr
      ⟨g1, g2, g3, g4, g5, g6, ?_, ?_, g9, g10, g11, g12⟩
    · show 0 < c.Interval - Nanosecond
      unfold Nanosecond
      omega
    · show c.Interval - Nanosecond < c.Interval
      unfold Nanosecond
      omega

/-- Witness for C3 at concrete configs: `validConfig` with its exchange
timeout raised to its interval fails validation, and with it set to one
nanosecond below the interval still validates. -/
theorem validate_exchangeTimeout_strict_witness :
    (Config.Validate
      { validConfig with ExchangeTimeout := validConfig.Interval }).isSome ∧
    Config.Validate
      { validConfig with
        ExchangeTimeout := validConfig.Interval - Nanosecond } = none := by
  constructor
  · exact (validate_exchangeTimeout_strict
      { validConfig with ExchangeTimeout := validConfig.Interval }).1 rfl
  · exact (validate_exchangeTimeout_strict validConfig).2 (by decide)

/-! ### C5: the address normalizer is total and best-effort -/

/-- C5: `addrToIPstr` never fails: a literal address (one the parse accepts)
is returned unchanged without consulting the resolver; otherwise a successful
non-empty lookup substitutes its first result, and a failed or empty lookup
leaves the input unchanged.  Totality (no propagated error) is the return
type `String`. -/
theorem addrToIPstr_best_effort (env : NetEnv) (a : String) :
    (env.parseIP a = true → addrToIPstr env a = a) ∧
    (env.parseIP a = false → ∀ n ns, env.lookupHost a = .ok (n :: ns) →
      addrToIPstr env a = n) ∧
    (env.parseIP a = false → env.lookupHost a = .ok [] →
      addrToIPstr env a = a) ∧
    (env.parseIP a = false → ∀ e, env.lookupHost a = .error e →
      addrToIPstr env a = a) := by
  unfold addrToIPstr
  refine ⟨fun h => ?_, fun h n ns hl => ?_, fun h hl => ?_, fun h e hl => ?_⟩
    <;> simp_all

/-- Witness for C5: in `testNet`, a literal address passes through, a
resolvable hostname becomes its first address, and an empty or failed lookup
leaves the name unchanged. -/
theorem addrToIPstr_best_effort_witness :
    addrToIPstr testNet "10.0.0.1" = "10.0.0.1" ∧
    addrToIPstr testNet "host-a" = "10.0.0.1" ∧
    addrToIPstr testNet "empty-host" = "empty-host" ∧
    addrToIPstr testNet "unknown.example" = "unknown.example" :=
  ⟨(addrToIPstr_best_effort testNet "10.0.0.1").1 rfl,
   (addrToIPstr_best_effort testNet "host-a").2.1 rfl "10.0.0.1" [] rfl,
   (addrToIPstr_best_effort testNet "empty-host").2.2.1 rfl rfl,
   (addrToIPstr_best_effort testNet "unknown.example").2.2.2 rfl
     "lookup: no such host" rfl⟩

/-! ### Helper lemmas about the stages of `PrepareConfig` -/

/-- `serverStage` changes only the `Servers` field. -/
theorem serverStage_fields (env : NetEnv) (targets : List String)
    (cfg : Config) :
    (serverStage env targets cfg).Iface = cfg.Iface ∧
    (serverStage env targets cfg).Timestamping = cfg.Timestamping ∧
    (serverStage env targets cfg).MonitoringPort = cfg.MonitoringPort ∧
    (serverStage env targets cfg).Interval = cfg.Interval ∧
    (serverStage env targets cfg).ExchangeTimeout = cfg.ExchangeTimeout ∧
    (serverStage env targets cfg).DSCP = cfg.DSCP ∧
    (serverStage env targets cfg).FirstStepThreshold =
      cfg.FirstStepThreshold ∧
    (serverStage env targets cfg).Measurement = cfg.Measurement ∧
    (serverStage env targets cfg).MetricsAggregationWindow =
      cfg.MetricsAggregationWindow ∧
    (serverStage env targets cfg).AttemptsTXTS = cfg.AttemptsTXTS ∧
    (serverStage env targets cfg).TimeoutTXTS = cfg.TimeoutTXTS ∧
    (serverStage env targets cfg).FreeRunning = cfg.FreeRunning := by
  unfold serverStage
  split_ifs <;>
    exact ⟨rfl, rfl, rfl, rfl, rfl, rfl, rfl, rfl, rfl, rfl, rfl, rfl⟩

/-- `cliStage` changes none of the fields outside its four scalars. -/
theorem cliStage_fields (iface : String) (mp iv d : Int) (cfg : Config) :
    (cliStage iface mp iv d cfg).Timestamping = cfg.Timestamping ∧
    (cliStage iface mp iv d cfg).ExchangeTimeout = cfg.ExchangeTimeout ∧
    (cliStage iface mp iv d cfg).FirstStepThreshold =
      cfg.FirstStepThreshold ∧
    (cliStage iface mp iv d cfg).Servers = cfg.Servers ∧
    (cliStage iface mp iv d cfg).Measurement = cfg.Measurement ∧
    (cliStage iface mp iv d cfg).MetricsAggregationWindow =
      cfg.MetricsAggregationWindow ∧
    (cliStage iface mp iv d cfg).AttemptsTXTS = cfg.AttemptsTXTS ∧
    (cliStage iface mp iv d cfg).TimeoutTXTS = cfg.TimeoutTXTS ∧
    (cliStage iface mp iv d cfg).FreeRunning = cfg.FreeRunning := by
  unfold cliStage overrideDSCP overrideInterval overrideMonitoringPort
    overrideIface
  split_ifs <;> exact ⟨rfl, rfl, rfl, rfl, rfl, rfl, rfl, rfl, rfl⟩

/-- The `Iface` of the CLI stage's result is decided by `overrideIface`. -/
theorem cliStage_Iface (iface : String) (mp iv d : Int) (cfg : Config) :
    (cliStage iface mp iv d cfg).Iface = (overrideIface iface cfg).Iface := by
  unfold cliStage overrideDSCP overrideInterval overrideMonitoringPort
  split_ifs <;> rfl

/-- The `MonitoringPort` of the CLI stage's result is decided by
`overrideMonitoringPort`, whose input port is `cfg`'s. -/
theorem cliStage_MonitoringPort (iface : String) (mp iv d : Int)
    (cfg : Config) :
    (cliStage iface mp iv d cfg).MonitoringPort =
      (overrideMonitoringPort mp
        (overrideIface iface cfg)).MonitoringPort := by
  unfold cliStage overrideDSCP overrideInterval
  split_ifs <;> rfl

/-- The `Interval` of the CLI stage's result is decided by
`overrideInterval`. -/
theorem cliStage_Interval (iface : String) (mp iv d : Int) (cfg : Config) :
    (cliStage iface mp iv d cfg).Interval =
      (overrideInterval iv
        (overrideMonitoringPort mp (overrideIface iface cfg))).Interval := by
  unfold cliStage overrideDSCP
  split_ifs <;> rfl

/-- `overrideIface` keeps every scalar other than `Iface`. -/
theorem overrideIface_other (iface : String) (cfg : Config) :
    (overrideIface iface cfg).MonitoringPort = cfg.MonitoringPort ∧
    (overrideIface iface cfg).Interval = cfg.Interval ∧
    (overrideIface iface cfg).DSCP = cfg.DSCP := by
  unfold overrideIface
  split_ifs <;> exact ⟨rfl, rfl, rfl⟩

/-- `overrideMonitoringPort` keeps every scalar other than
`MonitoringPort`. -/
theorem overrideMonitoringPort_other (mp : Int) (cfg : Config) :
    (overrideMonitoringPort mp cfg).Iface = cfg.Iface ∧
    (overrideMonitoringPort mp cfg).Interval = cfg.Interval ∧
    (overrideMonitoringPort mp cfg).DSCP = cfg.DSCP := by
  unfold overrideMonitoringPort
  split_ifs <;> exact ⟨rfl, rfl, rfl⟩

/-- `overrideInterval` keeps every scalar other than `Interval`. -/
theorem overrideInterval_other (iv : Int) (cfg : Config) :
    (overrideInterval iv cfg).Iface = cfg.Iface ∧
    (overrideInterval iv cfg).MonitoringPort = cfg.MonitoringPort ∧
    (overrideInterval iv cfg).DSCP = cfg.DSCP := by
  unfold overrideInterval
  split_ifs <;> exact ⟨rfl, rfl, rfl⟩

/-- Case analysis of `overrideIface` on its own field. -/
theorem overrideIface_cases (iface : String) (cfg : Config) :
    ((iface ≠ "" ∧ iface ≠ cfg.Iface) →
      (overrideIface iface cfg).Iface = iface) ∧
    ((iface = "" ∨ iface = cfg.Iface) →
      (overrideIface iface cfg).Iface = cfg.Iface) := by
  unfold overrideIface
  constructor
  · intro h
    rw [if_pos h]
  · intro h
    rw [if_neg]
    intro hc
    rcases h with h | h
    exacts [hc.1 h, hc.2 h]

/-- Case analysis of `overrideMonitoringPort` on its own field. -/
theorem overrideMonitoringPort_cases (mp : Int) (cfg : Config) :
    ((mp ≠ 0 ∧ mp ≠ cfg.MonitoringPort) →
      (overrideMonitoringPort mp cfg).MonitoringPort = mp) ∧
    ((mp = 0 ∨ mp = cfg.MonitoringPort) →
      (overrideMonitoringPort mp cfg).MonitoringPort =
        cfg.MonitoringPort) := by
  unfold overrideMonitoringPort
  constructor
  · intro h
    rw [if_pos h]
  · intro h
    rw [if_neg]
    intro hc
    rcases h with h | h
    exacts [hc.1 h, hc.2 h]

/-- Case analysis of `overrideInterval` on its own field. -/
theorem overrideInterval_cases (iv : Int) (cfg : Config) :
    ((iv ≠ 0 ∧ iv ≠ cfg.Interval) →
      (overrideInterval iv cfg).Interval = iv) ∧
    ((iv = 0 ∨ iv = cfg.Interval) →
      (overrideInterval iv cfg).Interval = cfg.Interval) := by
  unfold overrideInterval
  constructor
  · intro h
    rw [if_pos h]
  · intro h
    rw [if_neg]
    intro hc
    rcases h with h | h
    exacts [hc.1 h, hc.2 h]

/-- Case analysis of `overrideDSCP` on its own field. -/
theorem overrideDSCP_cases (d : Int) (cfg : Config) :
    ((d ≠ 0 ∧ d ≠ cfg.DSCP) → (overrideDSCP d cfg).DSCP = d) ∧
    ((d = 0 ∨ d = cfg.DSCP) → (overrideDSCP d cfg).DSCP = cfg.DSCP) := by
  unfold overrideDSCP
  constructor
  · intro h
    rw [if_pos h]
  · intro h
    rw [if_neg]
    intro hc
    rcases h with h | h
    exacts [hc.1 h, hc.2 h]

/-- Shape of every successful `PrepareConfig` run: a defaults/file config
exists, the result is the CLI stage applied to the server stage applied to
it, and the result validates. -/
theorem prepareConfig_ok_shape (env : NetEnv)
    (rc : String → Except String Config) (path : String)
    (targets : List String) (iface : String) (mp iv d : Int) (out : Config)
    (hout : PrepareConfig env rc path targets iface mp iv d = .ok out) :
    ∃ mid, fileStage rc path = .ok mid ∧
      out = cliStage iface mp iv d (serverStage env targets mid) ∧
      Config.Validate out = none := by
  unfold PrepareConfig at hout
  cases hf : fileStage rc path with
  | error e =>
      rw [hf] at hout
      exact Except.noConfusion hout
  | ok c0 =>
      rw [hf] at hout
      dsimp only at hout
      cases hv : Config.Validate
          (cliStage iface mp iv d (serverStage env targets c0)) with
      | some e =>
          rw [hv] at hout
          exact Except.noConfusion hout
      | none =>
          rw [hv] at hout
          cases hout
          exact ⟨c0, rfl, rfl, hv⟩

/-! ### C7: no partial results, error wrapping -/

/-- C7: `PrepareConfig` returns either a config that passes `Config.Validate`
(and no error), or exactly one error (the `Except` result carries no config
then): a file-read or parse failure is returned wrapped with the file path,
and a validation failure is returned wrapped with the resolution context. -/
theorem prepareConfig_exclusive_result (env : NetEnv)
    (rc : String → Except String Config) (path : String)
    (targets : List String) (iface : String) (mp iv d : Int) :
    (∀ out, PrepareConfig env rc path targets iface mp iv d = .ok out →
      Config.Validate out = none) ∧
    (∀ e, path ≠ "" → rc path = .error e →
      PrepareConfig env rc path targets iface mp iv d =
        .error ("reading config from \"" ++ path ++ "\": " ++ e)) ∧
    (∀ mid v, fileStage rc path = .ok mid →
      Config.Validate (cliStage iface mp iv d (serverStage env targets mid)) =
        some v →
      PrepareConfig env rc path targets iface mp iv d =
        .error ("validating config: " ++ v)) := by
  refine ⟨?_, ?_, ?_⟩
  · intro out hout
    obtain ⟨-, -, -, hv⟩ := prepareConfig_ok_shape env rc path targets
      iface mp iv d out hout
    exact hv
  · intro e hpath he
    have hf : fileStage rc path =
        .error ("reading config from \"" ++ path ++ "\": " ++ e) := by
      unfold fileStage
      rw [if_pos hpath, he]
    unfold PrepareConfig
    rw [hf]
  · intro mid v hmid hv
    unfold PrepareConfig
    rw [hmid]
    dsimp only
    rw [hv]

/-- Witness for C7: a successful run validates, a failing read on path
`cfg.yaml` is wrapped with that path, and a config with no servers is
rejected with the wrapped validation error. -/
theorem prepareConfig_exclusive_result_witness :
    Config.Validate
      (getOk (PrepareConfig testNet readFail "" ["192.0.2.1"] "eth0" 0 0 0)) =
      none ∧
    PrepareConfig testNet readFail "cfg.yaml" [] "eth0" 0 0 0 =
      .error "reading config from \"cfg.yaml\": no such file" ∧
    PrepareConfig testNet readFail "" [] "" 0 0 0 =
      .error "validating config: at least one server must be specified" := by
  refine ⟨?_, ?_, ?_⟩
  · exact (prepareConfig_exclusive_result testNet readFail "" ["192.0.2.1"]
      "eth0" 0 0 0).1 _ rfl
  · exact (prepareConfig_exclusive_result testNet readFail "cfg.yaml" []
      "eth0" 0 0 0).2.1 "no such file" (by decide) rfl
  · exact (prepareConfig_exclusive_result testNet readFail "" [] "" 0 0 0).2.2
      DefaultConfig "at least one server must be specified" rfl (by decide)

/-! ### C10: the CLI overlay's frame -/

/-- C10: on every successful run, the fields `Timestamping`,
`ExchangeTimeout`, `FirstStepThreshold`, `Measurement`,
`MetricsAggregationWindow`, `AttemptsTXTS`, `TimeoutTXTS` and `FreeRunning`
of the returned config are exactly those of the defaults/file-stage config:
the CLI overlay can change only `Servers`, `Iface`, `MonitoringPort`,
`Interval` and `DSCP`. -/
theorem prepareConfig_cli_frame (env : NetEnv)
    (rc : String → Except String Config) (path : String)
    (targets : List String) (iface : String) (mp iv d : Int)
    (mid out : Config) (hmid : fileStage rc path = .ok mid)
    (hout : PrepareConfig env rc path targets iface mp iv d = .ok out) :
    out.Timestamping = mid.Timestamping ∧
    out.ExchangeTimeout = mid.ExchangeTimeout ∧
    out.FirstStepThreshold = mid.FirstStepThreshold ∧
    out.Measurement = mid.Measurement ∧
    out.MetricsAggregationWindow = mid.MetricsAggregationWindow ∧
    out.AttemptsTXTS = mid.AttemptsTXTS ∧
    out.TimeoutTXTS = mid.TimeoutTXTS ∧
    out.FreeRunning = mid.FreeRunning := by
  obtain ⟨mid2, hmid2, hshape, -⟩ := prepareConfig_ok_shape env rc path
    targets iface mp iv d out hout
  rw [hmid] at hmid2
  injection hmid2 with hm
  subst hm
  subst hshape
  obtain ⟨c1, c2, c3, -, c5, c6, c7, c8, c9⟩ :=
    cliStage_fields iface mp iv d (serverStage env targets mid)
  obtain ⟨-, s2, -, -, s5, -, s7, s8, s9, s10, s11, s12⟩ :=
    serverStage_fields env targets mid
  exact ⟨c1.trans s2, c2.trans s5, c3.trans s7, c5.trans s8, c6.trans s9,
    c7.trans s10, c8.trans s11, c9.trans s12⟩

/-- Witness for C10 at a concrete run: file stage on the empty path yields
`DefaultConfig`, and the successful result keeps its eight non-CLI fields. -/
theorem prepareConfig_cli_frame_witness :
    (getOk (PrepareConfig testNet readFail "" ["192.0.2.1"] "eth0" 8888
        (2 * Second) 35)).Timestamping = DefaultConfig.Timestamping ∧
    (getOk (PrepareConfig testNet readFail "" ["192.0.2.1"] "eth0" 8888
        (2 * Second) 35)).ExchangeTimeout = DefaultConfig.ExchangeTimeout := by
  have hP : PrepareConfig testNet readFail "" ["192.0.2.1"] "eth0" 8888
      (2 * Second) 35 = .ok (getOk (PrepareConfig testNet readFail ""
        ["192.0.2.1"] "eth0" 8888 (2 * Second) 35)) := rfl
  obtain ⟨h1, h2, -⟩ := prepareConfig_cli_frame testNet readFail ""
    ["192.0.2.1"] "eth0" 8888 (2 * Second) 35 DefaultConfig _ rfl hP
  exact ⟨h1, h2⟩

/-! ### C1: the four scalar CLI overrides -/

/-- C1: on every successful run, each of the four scalar CLI overrides takes
effect exactly when it is non-zero (non-empty for `iface`) and differs from
the value held after the defaults/file stage; a zero or equal CLI value
leaves the defaults/file value in place. -/
theorem prepareConfig_cli_scalar_overrides (env : NetEnv)
    (rc : String → Except String Config) (path : String)
    (targets : List String) (iface : String) (mp iv d : Int)
    (mid out : Config) (hmid : fileStage rc path = .ok mid)
    (hout : PrepareConfig env rc path targets iface mp iv d = .ok out) :
    ((iface ≠ "" ∧ iface ≠ mid.Iface) → out.Iface = iface) ∧
    ((iface = "" ∨ iface = mid.Iface) → out.Iface = mid.Iface) ∧
    ((mp ≠ 0 ∧ mp ≠ mid.MonitoringPort) → out.MonitoringPort = mp) ∧
    ((mp = 0 ∨ mp = mid.MonitoringPort) →
      out.MonitoringPort = mid.MonitoringPort) ∧
    ((iv ≠ 0 ∧ iv ≠ mid.Interval) → out.Interval = iv) ∧
    ((iv = 0 ∨ iv = mid.Interval) → out.Interval = mid.Interval) ∧
    ((d ≠ 0 ∧ d ≠ mid.DSCP) → out.DSCP = d) ∧
    ((d = 0 ∨ d = mid.DSCP) → out.DSCP = mid.DSCP) := by
  obtain ⟨mid2, hmid2, hshape, -⟩ := prepareConfig_ok_shape env rc path
    targets iface mp iv d out hout
  rw [hmid] at hmid2
  injection hmid2 with hm
  subst hm
  subst hshape
  set s := serverStage env targets mid with hs
  obtain ⟨sIf, -, sMp, sIv, -, sD, -⟩ := serverStage_fields env targets mid
  have hIf := cliStage_Iface iface mp iv d s
  have hMp := cliStage_MonitoringPort iface mp iv d s
  have hIv := cliStage_Interval iface mp iv d s
  obtain ⟨oi1, oi2, oi3⟩ := overrideIface_other iface s
  obtain ⟨om1, om2, om3⟩ :=
    overrideMonitoringPort_other mp (overrideIface iface s)
  obtain ⟨ov1, ov2, ov3⟩ := overrideInterval_other iv
    (overrideMonitoringPort mp (overrideIface iface s))
  refine ⟨?_, ?_, ?_, ?_, ?_, ?_, ?_, ?_⟩
  · intro h
    rw [hIf]
    exact (overrideIface_cases iface s).1 ⟨h.1, by rw [sIf]; exact h.2⟩
  · intro h
    rw [hIf, (overrideIface_cases iface s).2 (by rw [sIf]; exact h)]
    exact sIf
  · intro h
    rw [hMp]
    exact (overrideMonitoringPort_cases mp (overrideIface iface s)).1
      ⟨h.1, by rw [oi1, sMp]; exact h.2⟩
  · intro h
    rw [hMp, (overrideMonitoringPort_cases mp (overrideIface iface s)).2
      (by rw [oi1, sMp]; exact h), oi1]
    exact sMp
  · intro h
    rw [hIv]
    exact (overrideInterval_cases iv
      (overrideMonitoringPort mp (overrideIface iface s))).1
      ⟨h.1, by rw [om2, oi2, sIv]; exact h.2⟩
  · intro h
    rw [hIv, (overrideInterval_cases iv
      (overrideMonitoringPort mp (overrideIface iface s))).2
      (by rw [om2, oi2, sIv]; exact h), om2, oi2]
    exact sIv
  · intro h
    exact (overrideDSCP_cases d (overrideInterval iv
      (overrideMonitoringPort mp (overrideIface iface s)))).1
      ⟨h.1, by rw [ov3, om3, oi3, sD]; exact h.2⟩
  · intro h
    have hD : (cliStage iface mp iv d s).DSCP =
        (overrideDSCP d (overrideInterval iv
          (overrideMonitoringPort mp (overrideIface iface s)))).DSCP := rfl
    rw [hD, (overrideDSCP_cases d (overrideInterval iv
        (overrideMonitoringPort mp (overrideIface iface s)))).2
      (by rw [ov3, om3, oi3, sD]; exact h), ov3, om3, oi3]
    exact sD

/-- Witness for C1: with defaults as the file stage (empty path), the four
CLI values `eth0`, `8888`, `2s`, `35` all differ from the defaults and are
taken, while zero CLI values leave the default scalars in place. -/
theorem prepareConfig_cli_scalar_overrides_witness :
    ((getOk (PrepareConfig testNet readFail "" ["192.0.2.1"] "eth0" 8888
        (2 * Second) 35)).Iface = "eth0" ∧
      (getOk (PrepareConfig testNet readFail "" ["192.0.2.1"] "eth0" 8888
        (2 * Second) 35)).MonitoringPort = 8888 ∧
      (getOk (PrepareConfig testNet readFail "" ["192.0.2.1"] "eth0" 8888
        (2 * Second) 35)).Interval = 2 * Second ∧
      (getOk (PrepareConfig testNet readFail "" ["192.0.2.1"] "eth0" 8888
        (2 * Second) 35)).DSCP = 35) ∧
    ((getOk (PrepareConfig testNet readFail "" ["192.0.2.1"] "eth0"
        0 0 0)).MonitoringPort = DefaultConfig.MonitoringPort ∧
      (getOk (PrepareConfig testNet readFail "" ["192.0.2.1"] "eth0"
        0 0 0)).Interval = DefaultConfig.Interval ∧
      (getOk (PrepareConfig testNet readFail "" ["192.0.2.1"] "eth0"
        0 0 0)).DSCP = DefaultConfig.DSCP) := by
  have hP1 : PrepareConfig testNet readFail "" ["192.0.2.1"] "eth0" 8888
      (2 * Second) 35 = .ok (getOk (PrepareConfig testNet readFail ""
        ["192.0.2.1"] "eth0" 8888 (2 * Second) 35)) := rfl
  obtain ⟨a1, -, a3, -, a5, -, a7, -⟩ := prepareConfig_cli_scalar_overrides
    testNet readFail "" ["192.0.2.1"] "eth0" 8888 (2 * Second) 35
    DefaultConfig _ rfl hP1
  have hP2 : PrepareConfig testNet readFail "" ["192.0.2.1"] "eth0" 0 0 0 =
      .ok (getOk (PrepareConfig testNet readFail "" ["192.0.2.1"] "eth0"
        0 0 0)) := rfl
  obtain ⟨-, -, -, b4, -, b6, -, b8⟩ := prepareConfig_cli_scalar_overrides
    testNet readFail "" ["192.0.2.1"] "eth0" 0 0 0 DefaultConfig _ rfl hP2
  exact ⟨⟨a1 (by decide), a3 (by decide), a5 (by decide), a7 (by decide)⟩,
    b4 (Or.inl rfl), b6 (Or.inl rfl), b8 (Or.inl rfl)⟩

/-! ### C9: the concrete scenario -/

/-- C9: with an empty file path, targets `["192.0.2.1"]`, iface `eth0` and
zero monitoring port, interval and DSCP, `PrepareConfig` succeeds with
servers `{"192.0.2.1": 0}`, iface `eth0` and the default interval (1 s) and
exchange timeout (100 ms), and the result passes validation.  The only
assumption on the environment is that `192.0.2.1` is recognized as a literal
address (so no lookup result is substituted for it). -/
theorem prepareConfig_concrete_scenario (env : NetEnv)
    (rc : String → Except String Config)
    (hparse : env.parseIP "192.0.2.1" = true) :
    PrepareConfig env rc "" ["192.0.2.1"] "eth0" 0 0 0 =
      .ok ({ DefaultConfig with
               Servers := [("192.0.2.1", 0)]
               Iface := "eth0" }) ∧
    Config.Validate
      { DefaultConfig with
          Servers := [("192.0.2.1", 0)]
          Iface := "eth0" } = none ∧
    ({ DefaultConfig with
         Servers := [("192.0.2.1", 0)]
         Iface := "eth0" } : Config).Interval = Second ∧
    ({ DefaultConfig with
         Servers := [("192.0.2.1", 0)]
         Iface := "eth0" } : Config).ExchangeTimeout = 100 * Millisecond := by
  have haddr : addrToIPstr env "192.0.2.1" = "192.0.2.1" := by
    unfold addrToIPstr
    rw [hparse]
    simp
  have key : PrepareConfig env rc "" ["192.0.2.1"] "eth0" 0 0 0 =
      .ok ({ DefaultConfig with
               Servers := [(addrToIPstr env "192.0.2.1", Int.ofNat 0)]
               Iface := "eth0" }) := rfl
  rw [haddr] at key
  exact ⟨key, by decide, rfl, rfl⟩

/-- Witness for C9: the same scenario run in the concrete `testNet`
environment, where `192.0.2.1` parses as a literal address. -/
theorem prepareConfig_concrete_scenario_witness :
    PrepareConfig testNet readFail "" ["192.0.2.1"] "eth0" 0 0 0 =
      .ok ({ DefaultConfig with
               Servers := [("192.0.2.1", 0)]
               Iface := "eth0" }) ∧
    Config.Validate
      { DefaultConfig with
          Servers := [("192.0.2.1", 0)]
          Iface := "eth0" } = none ∧
    ({ DefaultConfig with
         Servers := [("192.0.2.1", 0)]
         Iface := "eth0" } : Config).Interval = Second ∧
    ({ DefaultConfig with
         Servers := [("192.0.2.1", 0)]
         Iface := "eth0" } : Config).ExchangeTimeout = 100 * Millisecond :=
  prepareConfig_concrete_scenario testNet readFail rfl

/-! ### List lemmas about `mapInsert` folds -/

/-- Inserting an absent key appends the binding. -/
theorem mapInsert_append (m : List (String × Int)) (k : String) (v : Int)
    (h : k ∉ m.map Prod.fst) : mapInsert m k v = m ++ [(k, v)] := by
  induction m with
  | nil => rfl
  | cons a rest ih =>
      obtain ⟨k2, v2⟩ := a
      simp only [List.map_cons, List.mem_cons] at h
      push_neg at h
      unfold mapInsert
      rw [if_neg (fun he => h.1 he.symm), ih h.2]
      rfl

/-- Folding `mapInsert` over entries with pairwise-distinct keys (also absent
from the accumulator) appends all the bindings in order. -/
theorem foldl_mapInsert_nodup {α : Type} (kf : α → String) (vf : α → Int)
    (l : List α) (acc : List (String × Int)) (hd : (l.map kf).Nodup)
    (hdisj : ∀ a ∈ l, kf a ∉ acc.map Prod.fst) :
    l.foldl (fun m a => mapInsert m (kf a) (vf a)) acc =
      acc ++ l.map (fun a => (kf a, vf a)) := by
  induction l generalizing acc with
  | nil => simp
  | cons a l ih =>
      rw [List.map_cons] at hd
      obtain ⟨ha, hl⟩ := List.nodup_cons.mp hd
      rw [List.foldl_cons,
        mapInsert_append acc (kf a) (vf a) (hdisj a (List.mem_cons_self a l)),
        ih _ hl ?_, List.map_cons, List.append_assoc, List.singleton_append]
      intro b hb
      rw [List.map_append, List.mem_append]
      rintro (hacc | hsingle)
      · exact hdisj b (List.mem_cons_of_mem a hb) hacc
      · have hkb : kf b = kf a := by
          simpa using hsingle
        exact ha (hkb ▸ List.mem_map_of_mem kf hb)

/-! ### C2: CLI targets fully rebuild the server mapping -/

/-- C2: on every successful run with a non-empty targets list whose
normalized addresses are pairwise distinct (so that "each identifier's
normalized address maps to its position" is a well-defined mapping), the
resulting `Servers` is exactly the normalized targets paired with their
zero-based indices — independent of whatever servers the defaults/file stage
held. -/
theorem prepareConfig_targets_override (env : NetEnv)
    (rc : String → Except String Config) (path : String)
    (targets : List String) (iface : String) (mp iv d : Int) (out : Config)
    (hne : targets ≠ [])
    (hnodup : (targets.map (addrToIPstr env)).Nodup)
    (hout : PrepareConfig env rc path targets iface mp iv d = .ok out) :
    out.Servers =
      targets.enum.map (fun p => (addrToIPstr env p.2, Int.ofNat p.1)) := by
  obtain ⟨mid, -, hshape, -⟩ := prepareConfig_ok_shape env rc path targets
    iface mp iv d out hout
  subst hshape
  obtain ⟨-, -, -, hsrv, -⟩ :=
    cliStage_fields iface mp iv d (serverStage env targets mid)
  rw [hsrv]
  unfold serverStage
  rw [if_pos (List.length_pos.mpr hne)]
  show buildServers env targets = _
  unfold buildServers
  rw [foldl_mapInsert_nodup (fun p => addrToIPstr env p.2)
    (fun p => Int.ofNat p.1) targets.enum [] ?_
    (fun a _ ha => absurd ha (List.not_mem_nil _))]
  · rw [List.nil_append]
  · have : targets.enum.map (fun p => addrToIPstr env p.2) =
        targets.map (addrToIPstr env) := by
      rw [show (fun p : Nat × String => addrToIPstr env p.2) =
          (addrToIPstr env) ∘ Prod.snd from rfl, ← List.map_map,
        List.enum_map_snd]
    rw [this]
    exact hnodup

/-- Witness for C2: targets `["host-a", "host-b"]` under `testNet` resolve to
distinct addresses, and the resulting mapping is exactly
`{"10.0.0.1": 0, "10.0.0.2": 1}` even though the file stage held nothing. -/
theorem prepareConfig_targets_override_witness :
    (getOk (PrepareConfig testNet readFail "" ["host-a", "host-b"] "eth0"
      0 0 0)).Servers = [("10.0.0.1", 0), ("10.0.0.2", 1)] := by
  have h := prepareConfig_targets_override testNet readFail ""
    ["host-a", "host-b"] "eth0" 0 0 0 _ (by decide) (by decide) rfl
  exact h.trans (by decide)

/-! ### C6: empty CLI targets renormalize the file servers (corrected) -/

/-- Counterexample to C6 as stated: in the file `two.yaml`, `localhost` has
priority 0 and `127.0.0.1` priority 1; under `testNet` the hostname
`localhost` normalizes to `127.0.0.1`, so the two entries collide and the
run with no CLI targets returns a single-entry mapping — an entry is dropped
and the multiset of priorities shrinks from `{0, 1}` to `{1}`. -/
theorem prepareConfig_empty_targets_drop :
    fileStage readTwoServers "two.yaml" =
      .ok ({ DefaultConfig with
               Iface := "eth1"
               Servers := [("localhost", 0), ("127.0.0.1", 1)] }) ∧
    (getOk (PrepareConfig testNet readTwoServers "two.yaml" [] "" 0 0 0)
      ).Servers = [("127.0.0.1", 1)] :=
  ⟨rfl, rfl⟩

/-- C6 as amended: when the CLI targets list is empty, every key of the
defaults/file server mapping is replaced by its normalized address with its
priority value kept; when the normalized addresses are pairwise distinct no
entry is dropped and the priorities are preserved (entries whose normalized
addresses collide are merged, the one latest in iteration order winning). -/
theorem prepareConfig_empty_targets_normalize (env : NetEnv)
    (rc : String → Except String Config) (path : String) (iface : String)
    (mp iv d : Int) (mid out : Config)
    (hmid : fileStage rc path = .ok mid)
    (hnodup : (mid.Servers.map (fun p => addrToIPstr env p.1)).Nodup)
    (hout : PrepareConfig env rc path [] iface mp iv d = .ok out) :
    out.Servers = mid.Servers.map (fun p => (addrToIPstr env p.1, p.2)) ∧
    out.Servers.map Prod.snd = mid.Servers.map Prod.snd := by
  obtain ⟨mid2, hmid2, hshape, -⟩ := prepareConfig_ok_shape env rc path []
    iface mp iv d out hout
  rw [hmid] at hmid2
  injection hmid2 with hm
  subst hm
  subst hshape
  obtain ⟨-, -, -, hsrv, -⟩ :=
    cliStage_fields iface mp iv d (serverStage env [] mid)
  have hmain : (cliStage iface mp iv d (serverStage env [] mid)).Servers =
      mid.Servers.map (fun p => (addrToIPstr env p.1, p.2)) := by
    rw [hsrv]
    unfold serverStage
    rw [if_neg (by simp)]
    show normalizeServers env mid.Servers = _
    unfold normalizeServers
    rw [foldl_mapInsert_nodup (fun p => addrToIPstr env p.1)
      (fun p => p.2) mid.Servers [] hnodup
      (fun a _ ha => absurd ha (List.not_mem_nil _)), List.nil_append]
  refine ⟨hmain, ?_⟩
  rw [hmain, List.map_map]
  rfl

/-- Witness for the amended C6: a file holding `{"host-a": 7, "192.0.2.1":
3}` under `testNet` normalizes to `{"10.0.0.1": 7, "192.0.2.1": 3}`, with
both entries and priorities kept. -/
theorem prepareConfig_empty_targets_normalize_witness :
    (getOk (PrepareConfig testNet
      (fun p => if p == "ok.yaml" then
        .ok { DefaultConfig with
                Iface := "eth2"
                Servers := [("host-a", 7), ("192.0.2.1", 3)] }
        else .error "no such file")
      "ok.yaml" [] "" 0 0 0)).Servers =
      [("10.0.0.1", 7), ("192.0.2.1", 3)] ∧
    (getOk (PrepareConfig testNet
      (fun p => if p == "ok.yaml" then
        .ok { DefaultConfig with
                Iface := "eth2"
                Servers := [("host-a", 7), ("192.0.2.1", 3)] }
        else .error "no such file")
      "ok.yaml" [] "" 0 0 0)).Servers.map Prod.snd = [7, 3] := by
  obtain ⟨h1, h2⟩ := prepareConfig_empty_targets_normalize testNet
    (fun p => if p == "ok.yaml" then
      .ok { DefaultConfig with
              Iface := "eth2"
              Servers := [("host-a", 7), ("192.0.2.1", 3)] }
      else .error "no such file")
    "ok.yaml" "" 0 0 0
    { DefaultConfig with
        Iface := "eth2"
        Servers := [("host-a", 7), ("192.0.2.1", 3)] } _ rfl (by decide) rfl
  exact ⟨h1.trans (by decide), h2.trans (by decide)⟩

/-! ### C4: the validator is fail-fast with field-named messages -/

/-- `MeasurementConfig.Validate` returns `none` or one of exactly two
messages. -/
theorem measurement_validate_trichotomy (mc : MeasurementConfig) :
    mc.Validate = none ∨
    mc.Validate = some "path_delay_filter_length must be 0 or positive" ∨
    mc.Validate = some ("path_delay_filter must be either \"" ++ FilterNone ++
      "\", \"" ++ FilterMean ++ "\" or \"" ++ FilterMedian ++ "\"") := by
  unfold MeasurementConfig.Validate
  split_ifs <;> simp

set_option maxHeartbeats 1600000 in
/-- C4: `Config.Validate` is fail-fast: on every config it returns exactly
the message of the first violated check in the order interval, attempts,
per-attempt timeout, metrics window, monitoring port, DSCP, exchange
timeout, servers, timestamping, iface, nested measurement config
(`validateChecks`, written from the spec's ordering), and the eleven
messages are pairwise distinct, each naming its field.  Being a pure Lean
function of the config, validation has no side effects on it. -/
theorem validate_fail_fast (c : Config) :
    Config.Validate c = firstFailing (validateChecks c) ∧
    ((validateChecks c).map (fun p => p.2)).Nodup := by
  constructor
  · unfold Config.Validate firstFailing validateChecks
    split_ifs with h1 h2 h3 h4 h5 h6 h7 h8 h9 h10
    · simp [List.find?, not_lt.mpr h1]
    · simp [List.find?, not_le.mp h1, not_lt.mpr h2]
    · simp [List.find?, not_le.mp h1, not_le.mp h2, not_lt.mpr h3]
    · simp [List.find?, not_le.mp h1, not_le.mp h2, not_le.mp h3,
        not_lt.mpr h4]
    · simp [List.find?, not_le.mp h1, not_le.mp h2, not_le.mp h3,
        not_le.mp h4, not_le.mpr h5]
    · simp [List.find?, not_le.mp h1, not_le.mp h2, not_le.mp h3,
        not_le.mp h4, not_lt.mp h5, not_le.mpr h6]
    · rcases h7 with h7a | h7b
      · simp [List.find?, not_le.mp h1, not_le.mp h2, not_le.mp h3,
          not_le.mp h4, not_lt.mp h5, not_lt.mp h6, not_lt.mpr h7a]
      · simp [List.find?, not_le.mp h1, not_le.mp h2, not_le.mp h3,
          not_le.mp h4, not_lt.mp h5, not_lt.mp h6, not_lt.mpr h7b]
    · obtain ⟨h7a, h7b⟩ := not_or.mp h7
      simp [List.find?, not_le.mp h1, not_le.mp h2, not_le.mp h3,
        not_le.mp h4, not_lt.mp h5, not_lt.mp h6, not_le.mp h7a,
        not_le.mp h7b, List.length_eq_zero.mp h8]
    · obtain ⟨h7a, h7b⟩ := not_or.mp h7
      have h8n : c.Servers ≠ [] := fun he => h8 (by rw [he]; rfl)
      simp [List.find?, not_le.mp h1, not_le.mp h2, not_le.mp h3,
        not_le.mp h4, not_lt.mp h5, not_lt.mp h6, not_le.mp h7a,
        not_le.mp h7b, h8n, h9.1, h9.2]
    · obtain ⟨h7a, h7b⟩ := not_or.mp h7
      have h8n : c.Servers ≠ [] := fun he => h8 (by rw [he]; rfl)
      have h9d : c.Timestamping = HWTIMESTAMP ∨ c.Timestamping = SWTIMESTAMP
        := by tauto
      rcases h9d with h9h | h9s
      · simp [List.find?, not_le.mp h1, not_le.mp h2, not_le.mp h3,
          not_le.mp h4, not_lt.mp h5, not_lt.mp h6, not_le.mp h7a,
          not_le.mp h7b, h8n, h9h, h10]
      · simp [List.find?, not_le.mp h1, not_le.mp h2, not_le.mp h3,
          not_le.mp h4, not_lt.mp h5, not_lt.mp h6, not_le.mp h7a,
          not_le.mp h7b, h8n, h9s, h10,
          show SWTIMESTAMP ≠ HWTIMESTAMP from by decide]
    · obtain ⟨h7a, h7b⟩ := not_or.mp h7
      have h8n : c.Servers ≠ [] := fun he => h8 (by rw [he]; rfl)
      have h9d : c.Timestamping = HWTIMESTAMP ∨ c.Timestamping = SWTIMESTAMP
        := by tauto
      cases hm : c.Measurement.Validate with
      | none =>
          rcases h9d with h9h | h9s
          · simp [List.find?, not_le.mp h1, not_le.mp h2, not_le.mp h3,
              not_le.mp h4, not_lt.mp h5, not_lt.mp h6, not_le.mp h7a,
              not_le.mp h7b, h8n, h9h, h10, hm]
          · simp [List.find?, not_le.mp h1, not_le.mp h2, not_le.mp h3,
              not_le.mp h4, not_lt.mp h5, not_lt.mp h6, not_le.mp h7a,
              not_le.mp h7b, h8n, h9s, h10, hm,
              show SWTIMESTAMP ≠ HWTIMESTAMP from by decide]
      | some e =>
          rcases h9d with h9h | h9s
          · simp [List.find?, not_le.mp h1, not_le.mp h2, not_le.mp h3,
              not_le.mp h4, not_lt.mp h5, not_lt.mp h6, not_le.mp h7a,
              not_le.mp h7b, h8n, h9h, h10, hm]
          · simp [List.find?, not_le.mp h1, not_le.mp h2, not_le.mp h3,
              not_le.mp h4, not_lt.mp h5, not_lt.mp h6, not_le.mp h7a,
              not_le.mp h7b, h8n, h9s, h10, hm,
              show SWTIMESTAMP ≠ HWTIMESTAMP from by decide]
  · rcases measurement_validate_trichotomy c.Measurement with hm | hm | hm <;>
      · simp [validateChecks, hm]
        decide
